import Mathlib

/-!
Verification of the graph-exploration core of the untitled_world data
investigation platform.

The frontend TypeScript sources (`frontend/src/services/api.ts`,
`frontend/src/pages/GraphExplorer.tsx`,
`frontend/src/components/graph/GraphViewer.tsx`,
`frontend/src/types/ontology.ts`) are embedded directly.  The backend
traversal engine (`backend/app/api/v1/graph.py`) is not part of the
repository snapshot, so it is modelled from the specification (sections
3, 4.1-4.3, 6, 8 of spec.md) and clearly marked as such.
-/

namespace UntitledWorld

/-- From `frontend/src/types/ontology.ts`: `EntityType`.  Timestamps and the
open property schema are carried as plain strings / association lists. -/
structure EntityType where
  id : Nat
  name : String
  display_name : String
  description : Option String
  icon : Option String
  color : Option String
deriving Repr, DecidableEq

/-- From `frontend/src/types/ontology.ts`: `Entity`. -/
structure Entity where
  id : Nat
  entity_type_id : Nat
  title : String
  description : Option String
  properties : List (String × String)
deriving Repr, DecidableEq

/-- From `frontend/src/types/ontology.ts`: `RelationshipType`. -/
structure RelationshipType where
  id : Nat
  name : String
  display_name : String
  forward_label : String
  reverse_label : String
  color : Option String
deriving Repr, DecidableEq

/-- From `frontend/src/types/ontology.ts`: `Relationship` — a directed edge
between two entities. -/
structure Relationship where
  id : Nat
  relationship_type_id : Nat
  from_entity_id : Nat
  to_entity_id : Nat
  properties : List (String × String)
deriving Repr, DecidableEq

/-- From `frontend/src/types/ontology.ts`: `GraphNode` (derived, ephemeral). -/
structure GraphNode where
  id : Nat
  type : String
  title : String
  entity_type_id : Nat
  entity_type_name : String
  properties : List (String × String)
  color : Option String
  icon : Option String
deriving Repr, DecidableEq

/-- From `frontend/src/types/ontology.ts`: `GraphEdge` (derived, ephemeral). -/
structure GraphEdge where
  id : Nat
  source : Nat
  target : Nat
  type : String
  label : String
  relationship_type_id : Nat
  properties : List (String × String)
  color : Option String
deriving Repr, DecidableEq

/-- From `frontend/src/types/ontology.ts`: `GraphData` — the pair of node and
edge sequences handed to the UI. -/
structure GraphData where
  nodes : List GraphNode
  edges : List GraphEdge
deriving Repr, DecidableEq

/-- From `frontend/src/types/ontology.ts`: one element of
`GraphStats.entities_by_type`. -/
structure TypeCount where
  type : String
  display_name : String
  count : Nat
deriving Repr, DecidableEq

/-- From `frontend/src/types/ontology.ts`: `GraphStats`. -/
structure GraphStats where
  total_entities : Nat
  total_relationships : Nat
  entity_types : Nat
  relationship_types : Nat
  entities_by_type : List TypeCount
deriving Repr, DecidableEq

/-- Modelled from the spec: the Entity/Relationship Store collaborator
(spec.md section 2) — entity, entity-type, relationship and
relationship-type records with point and adjacency lookups.  The backend
persistence layer is not in the repository snapshot. -/
structure Store where
  entityTypes : List EntityType
  entities : List Entity
  relationshipTypes : List RelationshipType
  relationships : List Relationship
deriving Repr, DecidableEq

/-- Modelled from the spec: store well-formedness (spec.md section 3) —
records have unique ids, every relationship references two existing
entities ("a `from_entity` reference, a `to_entity` reference" connecting
an entity to "the relationship's other endpoint"), and every entity
references an existing EntityType. -/
def Store.wf (s : Store) : Prop :=
  (s.entities.map (fun e => e.id)).Nodup ∧
  (s.relationships.map (fun r => r.id)).Nodup ∧
  (s.entityTypes.map (fun t => t.id)).Nodup ∧
  (∀ r ∈ s.relationships,
    (∃ e ∈ s.entities, e.id = r.from_entity_id) ∧
    (∃ e ∈ s.entities, e.id = r.to_entity_id) ∧
    r.from_entity_id ≠ r.to_entity_id) ∧
  (∀ e ∈ s.entities, ∃ t ∈ s.entityTypes, t.id = e.entity_type_id)

instance (s : Store) : Decidable s.wf := by
  unfold Store.wf
  infer_instance

/-- Modelled from the spec: one level-synchronous expansion step of the
Traversal Engine (spec.md section 4.1) — every relationship with an
endpoint in the current visited set contributes its other endpoint. -/
def Store.expand (s : Store) (visited : Finset Nat) : Finset Nat :=
  s.relationships.foldr
    (fun r acc =>
      if r.from_entity_id ∈ visited ∨ r.to_entity_id ∈ visited then
        insert r.from_entity_id (insert r.to_entity_id acc)
      else acc)
    visited

/-- Modelled from the spec: the visited-entity set after `depth` levels of
breadth-first expansion from the seed set (spec.md section 4.1: the
visited set is seeded with the starting ids at level 0, then expanded
once per level from 1 to `depth`). -/
def Store.visitedUpTo (s : Store) (seeds : Finset Nat) : Nat → Finset Nat
  | 0 => seeds
  | d + 1 => s.expand (s.visitedUpTo seeds d)

/-- Modelled from the spec: the failure taxonomy relevant to the exploration
read path (spec.md section 7) — `NotFound` for an absent seed or
requested id, `InvalidArgument` for an empty id list passed to
subgraph. -/
inductive GraphError
  | notFound
  | invalidArgument
deriving Repr, DecidableEq

/-- Modelled from the spec: the raw result of the Traversal Engine before
assembly — the visited entity-id set and the visited relationships. -/
structure ExploreResult where
  nodeIds : Finset Nat
  edges : List Relationship

instance : DecidableEq ExploreResult := fun a b =>
  decidable_of_iff (a.nodeIds = b.nodeIds ∧ a.edges = b.edges)
    (by cases a; cases b; simp)

instance {ε α : Type} [DecidableEq ε] [DecidableEq α] :
    DecidableEq (Except ε α)
  | Except.ok a, Except.ok b =>
    decidable_of_iff (a = b)
      ⟨fun h => by rw [h], fun h => by cases h; rfl⟩
  | Except.ok _, Except.error _ => isFalse (fun h => Except.noConfusion h)
  | Except.error _, Except.ok _ => isFalse (fun h => Except.noConfusion h)
  | Except.error e, Except.error f =>
    decidable_of_iff (e = f)
      ⟨fun h => by rw [h], fun h => by cases h; rfl⟩

/-- Modelled from the spec: `ExploreSet(seedEntityIds, depth)`
(spec.md section 4.1).  Every seed must reference an existing entity,
else the whole call fails NotFound with no partial result.  The edge set
is the induced one: "every relationship with both endpoints in the
visited set is part of the result regardless of which level discovered
it" (sections 4.1 and 9). -/
def Store.exploreSet (s : Store) (seedIds : List Nat) (depth : Nat) :
    Except GraphError ExploreResult :=
  if seedIds.all (fun i => s.entities.any (fun e => e.id == i)) then
    let V := s.visitedUpTo seedIds.toFinset depth
    Except.ok
      { nodeIds := V
        edges := s.relationships.filter
          (fun r => decide (r.from_entity_id ∈ V ∧ r.to_entity_id ∈ V)) }
  else Except.error GraphError.notFound

/-- Modelled from the spec: `Explore(seedEntityId, depth)` is the
single-seed case of `ExploreSet` (spec.md section 4.1). -/
def Store.explore (s : Store) (seedId depth : Nat) :
    Except GraphError ExploreResult :=
  s.exploreSet [seedId] depth

/-- Modelled from the spec: `subgraph(entityIds)` — "depth implicitly 0
relative to the given set (edges among exactly these ids); fails
NotFound if any id unknown, failing the whole call"
(spec.md section 6); an empty id list is an `InvalidArgument` failure
(spec.md section 7). -/
def Store.subgraph (s : Store) (entityIds : List Nat) :
    Except GraphError ExploreResult :=
  if entityIds = [] then Except.error GraphError.invalidArgument
  else s.exploreSet entityIds 0

/-- Modelled from the spec: the Statistics Aggregator
(spec.md section 4.3) — totals over the full store and per-EntityType
entity counts, each group carrying the type's machine name, display
name and count. -/
def Store.stats (s : Store) : GraphStats :=
  { total_entities := s.entities.length
    total_relationships := s.relationships.length
    entity_types := s.entityTypes.length
    relationship_types := s.relationshipTypes.length
    entities_by_type := s.entityTypes.map (fun t =>
      { type := t.name
        display_name := t.display_name
        count := (s.entities.filter
          (fun e => e.entity_type_id == t.id)).length }) }

/-- From `frontend/src/services/api.ts` line 113: the HTTP GET request
issued by `graphApi.explore` — path `/graph/explore/(entityId)` with a
`depth` query parameter. -/
structure ExploreRequest where
  entityId : Nat
  depth : Nat
deriving Repr, DecidableEq

/-- From `frontend/src/services/api.ts`:
`explore: (entityId, depth = 1) => api.get(..., { params: { depth } })`.
The `depth` parameter defaults to `1`. -/
def graphApi.explore (entityId : Nat) (depth : Nat := 1) : ExploreRequest :=
  { entityId := entityId, depth := depth }

/-- Modelled from the spec: the server side of
`GET /graph/explore/(entityId)?depth=n` (spec.md section 6), not in the
repository snapshot: it runs the Traversal Engine and answers with a
`GraphData`-or-error payload. -/
def Store.handleExplore (s : Store) (req : ExploreRequest) :
    Except GraphError ExploreResult :=
  s.explore req.entityId req.depth

/-- From `frontend/src/pages/GraphExplorer.tsx`: the component state —
`selectedEntityId` (initially `null`), `searchTerm` (initially empty)
and `depth` (initially `1`). -/
structure ExplorerState where
  selectedEntityId : Option Nat
  searchTerm : String
  depth : Nat
deriving Repr, DecidableEq

/-- From `frontend/src/pages/GraphExplorer.tsx` lines 12-14: the initial
`useState` values. -/
def initialExplorerState : ExplorerState :=
  { selectedEntityId := none, searchTerm := "", depth := 1 }

/-- From `frontend/src/pages/GraphExplorer.tsx` lines 66-73: the depth
range input carries `min="1" max="3"`, so the value delivered by its
`onChange` handler is the candidate value confined to `[1, 3]`. -/
def rangeInputValue (v : Nat) : Nat :=
  max 1 (min 3 v)

/-- From `frontend/src/pages/GraphExplorer.tsx`: the user interactions that
mutate the component state — picking an entity from the sidebar list,
editing the search box, moving the depth slider, and clicking a node in
the rendered graph (`handleNodeClick`). -/
inductive ExplorerEvent
  | selectEntity (id : Nat)
  | setSearch (term : String)
  | setDepth (v : Nat)
  | clickNode (id : Nat)
deriving Repr, DecidableEq

/-- From `frontend/src/pages/GraphExplorer.tsx`: the state transition for
each interaction. -/
def explorerStep (st : ExplorerState) : ExplorerEvent → ExplorerState
  | ExplorerEvent.selectEntity id => { st with selectedEntityId := some id }
  | ExplorerEvent.setSearch term => { st with searchTerm := term }
  | ExplorerEvent.setDepth v => { st with depth := rangeInputValue v }
  | ExplorerEvent.clickNode id => { st with selectedEntityId := some id }

/-- From `frontend/src/pages/GraphExplorer.tsx`: the state reached after a
sequence of user interactions starting from the initial state. -/
def explorerRun (events : List ExplorerEvent) : ExplorerState :=
  events.foldl explorerStep initialExplorerState

/-- The empty `GraphData` produced by the explorer page when no entity is
selected (`frontend/src/pages/GraphExplorer.tsx` line 27:
`Promise.resolve({ nodes: [], edges: [] })`). -/
def emptyGraphData : GraphData :=
  { nodes := [], edges := [] }

/-- From `frontend/src/pages/GraphExplorer.tsx` lines 24-27: what the graph
query function does when invoked — either issue the explore API request
or resolve locally to a value without any API call. -/
inductive QueryAction
  | apiCall (req : ExploreRequest)
  | resolve (g : GraphData)
deriving Repr, DecidableEq

/-- From `frontend/src/pages/GraphExplorer.tsx` lines 24-27: the graph
query function — `selectedEntityId ? graphApi.explore(selectedEntityId,
depth) : Promise.resolve({ nodes: [], edges: [] })`. -/
def graphQueryFn (selectedEntityId : Option Nat) (depth : Nat) : QueryAction :=
  match selectedEntityId with
  | some id => QueryAction.apiCall (graphApi.explore id depth)
  | none => QueryAction.resolve emptyGraphData

/-- From `frontend/src/pages/GraphExplorer.tsx` line 28:
`enabled: selectedEntityId !== null` — the query runs only when an
entity is selected. -/
def graphQueryEnabled (selectedEntityId : Option Nat) : Bool :=
  selectedEntityId.isSome

/-- From `frontend/src/pages/GraphExplorer.tsx`: the explore request the
page issues in a given state, when any (the query is disabled while no
entity is selected). -/
def pageRequest (st : ExplorerState) : Option ExploreRequest :=
  st.selectedEntityId.map (fun id => graphApi.explore id st.depth)

/-- From `frontend/src/components/graph/GraphViewer.tsx` lines 40-43: the
ReactFlow node position is a pure function of the node's index and the
total node count (`cos/sin(2 pi * index / nodes.length) * 300 + offset`);
the floating-point evaluation is abstracted to its two integer
arguments. -/
structure FlowPosition where
  index : Nat
  total : Nat
deriving Repr, DecidableEq

/-- From `frontend/src/components/graph/GraphViewer.tsx` lines 37-45: a
ReactFlow node built from a `GraphNode`. -/
structure FlowNode where
  id : String
  type : String
  position : FlowPosition
  data : GraphNode
deriving Repr, DecidableEq

/-- From `frontend/src/components/graph/GraphViewer.tsx` lines 47-59: a
ReactFlow edge built from a `GraphEdge`. -/
structure FlowEdge where
  id : String
  source : String
  target : String
  label : String
  type : String
  animated : Bool
  strokeColor : String
  data : GraphEdge
deriving Repr, DecidableEq

/-- From `frontend/src/components/graph/GraphViewer.tsx` lines 37-45: the
conversion of one `GraphNode` at position `i` of `n` input nodes. -/
def toFlowNode (i n : Nat) (node : GraphNode) : FlowNode :=
  { id := toString node.id
    type := "entity"
    position := { index := i, total := n }
    data := node }

/-- From `frontend/src/components/graph/GraphViewer.tsx` lines 47-59: the
conversion of one `GraphEdge`. -/
def toFlowEdge (edge : GraphEdge) : FlowEdge :=
  { id := toString edge.id
    source := toString edge.source
    target := toString edge.target
    label := edge.label
    type := "smoothstep"
    animated := true
    strokeColor := edge.color.getD "#94a3b8"
    data := edge }

/-- `Array.map`-with-index over a list, the shape of
`data.nodes.map((node, index) => ...)`. -/
def mapWithIdx (f : Nat → GraphNode → FlowNode) : Nat → List GraphNode → List FlowNode
  | _, [] => []
  | i, node :: rest => f i node :: mapWithIdx f (i + 1) rest

/-- From `frontend/src/components/graph/GraphViewer.tsx` lines 36-45: the
node list handed to ReactFlow. -/
def toFlowNodes (d : GraphData) : List FlowNode :=
  mapWithIdx (fun i node => toFlowNode i d.nodes.length node) 0 d.nodes

/-- From `frontend/src/components/graph/GraphViewer.tsx` lines 47-59: the
edge list handed to ReactFlow. -/
def toFlowEdges (d : GraphData) : List FlowEdge :=
  d.edges.map toFlowEdge

/-- The sample store of spec.md section 8: entities 1 (Person "Alice"),
2 (Company "TechCorp"), 3 (Person "Bob"); relationships 1 (1 to 2,
works_for) and 2 (1 to 3, knows). -/
def sampleStore : Store :=
  { entityTypes :=
      [ { id := 1, name := "person", display_name := "Person",
          description := none, icon := none, color := some "#3b82f6" }
      , { id := 2, name := "company", display_name := "Company",
          description := none, icon := none, color := some "#10b981" } ]
    entities :=
      [ { id := 1, entity_type_id := 1, title := "Alice",
          description := none, properties := [] }
      , { id := 2, entity_type_id := 2, title := "TechCorp",
          description := none, properties := [] }
      , { id := 3, entity_type_id := 1, title := "Bob",
          description := none, properties := [] } ]
    relationshipTypes :=
      [ { id := 1, name := "works_for", display_name := "Works For",
          forward_label := "works for", reverse_label := "employs",
          color := none }
      , { id := 2, name := "knows", display_name := "Knows",
          forward_label := "knows", reverse_label := "known by",
          color := none } ]
    relationships :=
      [ { id := 1, relationship_type_id := 1, from_entity_id := 1,
          to_entity_id := 2, properties := [] }
      , { id := 2, relationship_type_id := 2, from_entity_id := 1,
          to_entity_id := 3, properties := [] } ] }

/-- Concrete records of `sampleStore`, used to instantiate theorems. -/
def sampleRel1 : Relationship :=
  { id := 1, relationship_type_id := 1, from_entity_id := 1,
    to_entity_id := 2, properties := [] }

/-- The second relationship of `sampleStore`. -/
def sampleRel2 : Relationship :=
  { id := 2, relationship_type_id := 2, from_entity_id := 1,
    to_entity_id := 3, properties := [] }

/-- The raw traversal result of `Explore(1, 1)` on the sample store. -/
def sampleExploreResult1 : ExploreResult :=
  { nodeIds := {1, 2, 3}, edges := [sampleRel1, sampleRel2] }

/-- A one-node, one-edge `GraphData` used to instantiate the viewer
conversion theorems. -/
def sampleGraphNode : GraphNode :=
  { id := 1, type := "person", title := "Alice", entity_type_id := 1,
    entity_type_name := "person", properties := [], color := some "#3b82f6",
    icon := none }

/-- A sample edge for the viewer conversion theorems. -/
def sampleGraphEdge : GraphEdge :=
  { id := 1, source := 1, target := 2, type := "works_for",
    label := "works for", relationship_type_id := 1, properties := [],
    color := none }

/-- A sample `GraphData` for the viewer conversion theorems. -/
def sampleGraphData : GraphData :=
  { nodes := [sampleGraphNode], edges := [sampleGraphEdge] }

theorem foldr_expand_superset (V : Finset Nat) (l : List Relationship) :
    V ⊆ l.foldr
      (fun r acc =>
        if r.from_entity_id ∈ V ∨ r.to_entity_id ∈ V then
          insert r.from_entity_id (insert r.to_entity_id acc)
        else acc)
      V := by
  induction l with
  | nil => exact Finset.Subset.refl V
  | cons r rs ih =>
    rw [List.foldr_cons]
    split
    · exact ih.trans ((Finset.subset_insert _ _).trans (Finset.subset_insert _ _))
    · exact ih

theorem expand_superset (s : Store) (V : Finset Nat) : V ⊆ s.expand V :=
  foldr_expand_superset V s.relationships

theorem visitedUpTo_subset_succ (s : Store) (seeds : Finset Nat) (d : Nat) :
    s.visitedUpTo seeds d ⊆ s.visitedUpTo seeds (d + 1) :=
  expand_superset s (s.visitedUpTo seeds d)

theorem visitedUpTo_mono (s : Store) (seeds : Finset Nat) {d1 d2 : Nat}
    (h : d1 ≤ d2) : s.visitedUpTo seeds d1 ⊆ s.visitedUpTo seeds d2 := by
  induction d2 with
  | zero =>
    have hz : d1 = 0 := Nat.le_zero.mp h
    subst hz
    exact Finset.Subset.refl _
  | succ n ih =>
    by_cases hn : d1 ≤ n
    · exact (ih hn).trans (visitedUpTo_subset_succ s seeds n)
    · have he : d1 = n + 1 := by omega
      subst he
      exact Finset.Subset.refl _

theorem exploreSet_ok (s : Store) (ids : List Nat) (d : Nat)
    (h : ∀ i ∈ ids, ∃ e ∈ s.entities, e.id = i) :
    s.exploreSet ids d = Except.ok
      { nodeIds := s.visitedUpTo ids.toFinset d
        edges := s.relationships.filter (fun r =>
          decide (r.from_entity_id ∈ s.visitedUpTo ids.toFinset d ∧
            r.to_entity_id ∈ s.visitedUpTo ids.toFinset d)) } := by
  have hc : (ids.all fun i => s.entities.any fun e => e.id == i) = true := by
    simp only [List.all_eq_true, List.any_eq_true, beq_iff_eq]
    exact h
  unfold Store.exploreSet
  rw [if_pos hc]

theorem exploreSet_error (s : Store) (ids : List Nat) (d : Nat)
    (h : ∃ i ∈ ids, ∀ e ∈ s.entities, e.id ≠ i) :
    s.exploreSet ids d = Except.error GraphError.notFound := by
  have hc : ¬ ((ids.all fun i => s.entities.any fun e => e.id == i) = true) := by
    intro hall
    rw [List.all_eq_true] at hall
    obtain ⟨i, hi, hne⟩ := h
    have hany := hall i hi
    rw [List.any_eq_true] at hany
    obtain ⟨e, he, heq⟩ := hany
    exact hne e he (by rwa [beq_iff_eq] at heq)
  unfold Store.exploreSet
  rw [if_neg hc]

theorem mem_induced_edges (rels : List Relationship) (V : Finset Nat)
    (r : Relationship) :
    r ∈ rels.filter (fun r =>
        decide (r.from_entity_id ∈ V ∧ r.to_entity_id ∈ V)) ↔
      r ∈ rels ∧ r.from_entity_id ∈ V ∧ r.to_entity_id ∈ V := by
  simp [List.mem_filter]

theorem relationships_nodup (s : Store) (hwf : s.wf) : s.relationships.Nodup :=
  List.Nodup.of_map _ hwf.2.1

/-- C1 (cross-edge completeness): for every relationship `r` of a
well-formed store, if both endpoints of `r` are in the visited node set
returned by an `Explore` call — whichever levels discovered them — then
`r` appears in the returned edge set exactly once: never duplicated and
never omitted. -/
theorem explore_cross_edge_exactly_once (s : Store) (hwf : s.wf)
    (seed depth : Nat) (r : Relationship) (hr : r ∈ s.relationships)
    (res : ExploreResult) (hok : s.explore seed depth = Except.ok res)
    (hfrom : r.from_entity_id ∈ res.nodeIds)
    (hto : r.to_entity_id ∈ res.nodeIds) :
    res.edges.count r = 1 := by
  unfold Store.explore Store.exploreSet at hok
  split at hok
  · rw [Except.ok.injEq] at hok
    subst hok
    dsimp only at hfrom hto ⊢
    apply List.count_eq_one_of_mem
    · exact List.Nodup.filter _ (relationships_nodup s hwf)
    · rw [mem_induced_edges]
      exact ⟨hr, hfrom, hto⟩
  · cases hok

theorem explore_cross_edge_exactly_once_witness :
    sampleExploreResult1.edges.count sampleRel1 = 1 :=
  explore_cross_edge_exactly_once sampleStore (by decide) 1 1 sampleRel1
    (by decide) sampleExploreResult1 (by decide) (by decide) (by decide)

/-- C2: on a well-formed store, for every existing seed entity id,
`Explore(id, 0)` returns exactly one node — the seed — and zero
edges. -/
theorem explore_depth_zero_seed_only (s : Store) (hwf : s.wf) (seed : Nat)
    (hseed : ∃ e ∈ s.entities, e.id = seed) :
    s.explore seed 0 = Except.ok { nodeIds := {seed}, edges := [] } := by
  unfold Store.explore
  rw [exploreSet_ok s [seed] 0 ?hall]
  case hall =>
    intro i hi
    rw [List.mem_singleton] at hi
    subst hi
    exact hseed
  have hV : s.visitedUpTo ([seed] : List Nat).toFinset 0 = {seed} := by
    simp [Store.visitedUpTo]
  rw [hV]
  have hE : s.relationships.filter (fun r =>
      decide (r.from_entity_id ∈ ({seed} : Finset Nat) ∧
        r.to_entity_id ∈ ({seed} : Finset Nat))) = [] := by
    rw [List.filter_eq_nil_iff]
    intro r hr hcontra
    rw [decide_eq_true_eq] at hcontra
    obtain ⟨h1, h2⟩ := hcontra
    rw [Finset.mem_singleton] at h1 h2
    exact (hwf.2.2.2.1 r hr).2.2 (h1.trans h2.symm)
  rw [hE]

theorem explore_depth_zero_seed_only_witness :
    sampleStore.explore 1 0 = Except.ok { nodeIds := {1}, edges := [] } :=
  explore_depth_zero_seed_only sampleStore (by decide) 1 (by decide)

/-- C3 (monotonicity): for every existing seed entity id and depths
`d1 < d2`, both calls succeed and the node set of `Explore(id, d1)` is a
subset of the node set of `Explore(id, d2)`. -/
theorem explore_nodes_monotone (s : Store) (seed d1 d2 : Nat)
    (hseed : ∃ e ∈ s.entities, e.id = seed) (hlt : d1 < d2) :
    ∃ res1 res2, s.explore seed d1 = Except.ok res1 ∧
      s.explore seed d2 = Except.ok res2 ∧ res1.nodeIds ⊆ res2.nodeIds := by
  have hall : ∀ i ∈ ([seed] : List Nat), ∃ e ∈ s.entities, e.id = i := by
    intro i hi
    rw [List.mem_singleton] at hi
    subst hi
    exact hseed
  exact ⟨_, _, exploreSet_ok s [seed] d1 hall, exploreSet_ok s [seed] d2 hall,
    visitedUpTo_mono s _ (Nat.le_of_lt hlt)⟩

theorem explore_nodes_monotone_witness :
    ∃ res1 res2, sampleStore.explore 2 0 = Except.ok res1 ∧
      sampleStore.explore 2 1 = Except.ok res2 ∧ res1.nodeIds ⊆ res2.nodeIds :=
  explore_nodes_monotone sampleStore 2 0 1 (by decide) (by decide)

/-- C4 counterexample: the claim quantifies over every id list whose
members all exist in the store, which vacuously includes the empty
list; there `subgraph` fails InvalidArgument (spec.md section 7:
"empty id list for subgraph"), so the call does not return the
(empty) GraphData the claim asserts. -/
theorem subgraph_empty_list_counterexample :
    (∀ i ∈ ([] : List Nat), ∃ e ∈ sampleStore.entities, e.id = i) ∧
    sampleStore.subgraph [] = Except.error GraphError.invalidArgument ∧
    ¬ ∃ res, sampleStore.subgraph [] = Except.ok res := by
  refine ⟨by simp, by decide, ?_⟩
  rintro ⟨res, h⟩
  rw [show sampleStore.subgraph [] = Except.error GraphError.invalidArgument
    from by decide] at h
  cases h

/-- C4 (amended): `subgraph(entityIds)` with a nonempty id list whose ids
are all known returns exactly the supplied entities as nodes and
exactly the relationships with both endpoints among the supplied ids as
edges; with any unknown id the whole call fails NotFound; the empty id
list fails InvalidArgument. -/
theorem subgraph_exact_ids_and_edges (s : Store) (ids : List Nat) :
    (ids ≠ [] → (∀ i ∈ ids, ∃ e ∈ s.entities, e.id = i) →
      ∃ res, s.subgraph ids = Except.ok res ∧ res.nodeIds = ids.toFinset ∧
        ∀ r, r ∈ res.edges ↔
          (r ∈ s.relationships ∧ r.from_entity_id ∈ ids ∧
            r.to_entity_id ∈ ids)) ∧
    ((∃ i ∈ ids, ∀ e ∈ s.entities, e.id ≠ i) →
      s.subgraph ids = Except.error GraphError.notFound) ∧
    (ids = [] → s.subgraph ids = Except.error GraphError.invalidArgument) := by
  refine ⟨?_, ?_, ?_⟩
  · intro hne hall
    unfold Store.subgraph
    rw [if_neg hne]
    refine ⟨_, exploreSet_ok s ids 0 hall, rfl, ?_⟩
    intro r
    dsimp only
    rw [mem_induced_edges]
    simp [Store.visitedUpTo, List.mem_toFinset]
  · intro h
    have hne : ids ≠ [] := by
      obtain ⟨i, hi, _⟩ := h
      exact List.ne_nil_of_mem hi
    unfold Store.subgraph
    rw [if_neg hne]
    exact exploreSet_error s ids 0 h
  · intro he
    unfold Store.subgraph
    rw [if_pos he]

theorem subgraph_exact_ids_and_edges_witness :
    (∃ res, sampleStore.subgraph [1, 2] = Except.ok res ∧
      res.nodeIds = ([1, 2] : List Nat).toFinset ∧
      ∀ r, r ∈ res.edges ↔
        (r ∈ sampleStore.relationships ∧ r.from_entity_id ∈ [1, 2] ∧
          r.to_entity_id ∈ [1, 2])) ∧
    sampleStore.subgraph [999] = Except.error GraphError.notFound ∧
    sampleStore.subgraph [] = Except.error GraphError.invalidArgument :=
  ⟨(subgraph_exact_ids_and_edges sampleStore [1, 2]).1 (by decide) (by decide),
    (subgraph_exact_ids_and_edges sampleStore [999]).2.1 (by decide),
    (subgraph_exact_ids_and_edges sampleStore []).2.2 rfl⟩

/-- C5: an `Explore` call naming a seed id that references no existing
entity fails with NotFound — the caller receives the error, never a
(partial) graph. -/
theorem explore_unknown_seed_notFound (s : Store) (seed depth : Nat)
    (h : ∀ e ∈ s.entities, e.id ≠ seed) :
    s.explore seed depth = Except.error GraphError.notFound := by
  unfold Store.explore
  exact exploreSet_error s [seed] depth ⟨seed, List.mem_singleton_self seed, h⟩

theorem explore_unknown_seed_notFound_witness :
    sampleStore.explore 999 1 = Except.error GraphError.notFound :=
  explore_unknown_seed_notFound sampleStore 999 1 (by decide)

theorem sum_map_addfn (ts : List EntityType) (f g : EntityType → Nat) :
    (ts.map (fun t => f t + g t)).sum = (ts.map f).sum + (ts.map g).sum := by
  induction ts with
  | nil => simp
  | cons a l ih =>
    simp [ih]
    omega

theorem sum_indicator (x : Nat) (ts : List EntityType)
    (hnd : (ts.map (fun t => t.id)).Nodup) (hx : ∃ t ∈ ts, t.id = x) :
    (ts.map (fun t => if x = t.id then 1 else 0)).sum = 1 := by
  induction ts with
  | nil =>
    obtain ⟨t, ht, _⟩ := hx
    cases ht
  | cons t ts ih =>
    rw [List.map_cons, List.sum_cons]
    rw [List.map_cons, List.nodup_cons] at hnd
    by_cases hxt : x = t.id
    · rw [if_pos hxt]
      have hzero : (ts.map (fun u => if x = u.id then 1 else 0)).sum = 0 := by
        apply List.sum_eq_zero
        intro n hn
        rw [List.mem_map] at hn
        obtain ⟨u, hu, hnu⟩ := hn
        have hne : x ≠ u.id := by
          intro hcontra
          exact hnd.1 (List.mem_map.mpr ⟨u, hu, by omega⟩)
        rw [if_neg hne] at hnu
        omega
      rw [hzero]
    · rw [if_neg hxt]
      have hx2 : ∃ u ∈ ts, u.id = x := by
        obtain ⟨u, hu, hux⟩ := hx
        rcases List.mem_cons.mp hu with h | h
        · exact absurd (h ▸ hux).symm hxt
        · exact ⟨u, h, hux⟩
      rw [ih hnd.2 hx2]

theorem sum_type_counts (ts : List EntityType) (es : List Entity)
    (hnd : (ts.map (fun t => t.id)).Nodup)
    (hcov : ∀ e ∈ es, ∃ t ∈ ts, t.id = e.entity_type_id) :
    (ts.map (fun t =>
      (es.filter (fun e => e.entity_type_id == t.id)).length)).sum
      = es.length := by
  induction es with
  | nil =>
    apply List.sum_eq_zero
    intro n hn
    rw [List.mem_map] at hn
    obtain ⟨t, _, h⟩ := hn
    simpa using h.symm
  | cons e es ih =>
    have hlen : ∀ t : EntityType,
        ((e :: es).filter (fun x => x.entity_type_id == t.id)).length
          = (if e.entity_type_id = t.id then 1 else 0)
            + (es.filter (fun x => x.entity_type_id == t.id)).length := by
      intro t
      by_cases hb : e.entity_type_id = t.id
      · simp [List.filter_cons, hb]
        omega
      · simp [List.filter_cons, hb]
    simp only [hlen]
    rw [sum_map_addfn]
    rw [sum_indicator e.entity_type_id ts hnd (hcov e (List.mem_cons_self e es))]
    rw [ih (fun x hx => hcov x (List.mem_cons_of_mem e hx))]
    simp [List.length_cons]
    omega

/-- C6: for every well-formed store, the total entity count reported by
`Stats()` equals the sum of the per-EntityType counts in the
`entities_by_type` breakdown. -/
theorem stats_total_matches_breakdown (s : Store) (hwf : s.wf) :
    ((s.stats).entities_by_type.map (fun b => b.count)).sum
      = (s.stats).total_entities := by
  unfold Store.stats
  dsimp only
  rw [List.map_map]
  exact sum_type_counts s.entityTypes s.entities hwf.2.2.1 hwf.2.2.2.2

theorem stats_total_matches_breakdown_witness :
    ((sampleStore.stats).entities_by_type.map (fun b => b.count)).sum
      = (sampleStore.stats).total_entities :=
  stats_total_matches_breakdown sampleStore (by decide)

/-- C7: calling the client's `graphApi.explore` without an explicit depth
argument issues a request carrying `depth = 1`, and handling that
request on a store containing the entity returns a graph payload. -/
theorem explore_default_depth_one (entityId : Nat) :
    graphApi.explore entityId = { entityId := entityId, depth := 1 } ∧
    (∀ s : Store, (∃ e ∈ s.entities, e.id = entityId) →
      ∃ res, s.handleExplore (graphApi.explore entityId) = Except.ok res) := by
  refine ⟨rfl, ?_⟩
  intro s hseed
  have hall : ∀ i ∈ ([entityId] : List Nat), ∃ e ∈ s.entities, e.id = i := by
    intro i hi
    rw [List.mem_singleton] at hi
    subst hi
    exact hseed
  exact ⟨_, exploreSet_ok s [entityId] 1 hall⟩

theorem explore_default_depth_one_witness :
    graphApi.explore 1 = { entityId := 1, depth := 1 } ∧
    ∃ res, sampleStore.handleExplore (graphApi.explore 1) = Except.ok res :=
  ⟨(explore_default_depth_one 1).1,
    (explore_default_depth_one 1).2 sampleStore (by decide)⟩

theorem explorerStep_depth_bounds (st : ExplorerState)
    (h1 : 1 ≤ st.depth) (h3 : st.depth ≤ 3) (ev : ExplorerEvent) :
    1 ≤ (explorerStep st ev).depth ∧ (explorerStep st ev).depth ≤ 3 := by
  cases ev <;> simp [explorerStep, rangeInputValue] <;> omega

theorem explorerFold_depth_bounds (events : List ExplorerEvent) :
    ∀ st : ExplorerState, 1 ≤ st.depth → st.depth ≤ 3 →
      1 ≤ (events.foldl explorerStep st).depth ∧
      (events.foldl explorerStep st).depth ≤ 3 := by
  induction events with
  | nil => intro st h1 h3; exact ⟨h1, h3⟩
  | cons ev evs ih =>
    intro st h1 h3
    rw [List.foldl_cons]
    have hb := explorerStep_depth_bounds st h1 h3 ev
    exact ih _ hb.1 hb.2

/-- C8: on the Graph Explorer page the depth value starts at 1 and only
changes through the range input bounded by 1 and 3, so after any
sequence of interactions the depth lies in [1, 3] and so does the depth
of any explore request the page issues. -/
theorem explorer_depth_in_range (events : List ExplorerEvent) :
    1 ≤ (explorerRun events).depth ∧ (explorerRun events).depth ≤ 3 ∧
    ∀ req ∈ pageRequest (explorerRun events),
      1 ≤ req.depth ∧ req.depth ≤ 3 := by
  have hb := explorerFold_depth_bounds events initialExplorerState
    (by decide) (by decide)
  refine ⟨hb.1, hb.2, ?_⟩
  intro req hreq
  unfold pageRequest at hreq
  rw [Option.mem_def] at hreq
  cases hsel : (explorerRun events).selectedEntityId with
  | none =>
    rw [hsel] at hreq
    cases hreq
  | some id =>
    rw [hsel] at hreq
    simp only [Option.map] at hreq
    rw [Option.some.injEq] at hreq
    subst hreq
    exact ⟨hb.1, hb.2⟩

theorem explorer_depth_in_range_witness :
    (1 ≤ (explorerRun [ExplorerEvent.setDepth 7,
        ExplorerEvent.selectEntity 2]).depth) ∧
    ((explorerRun [ExplorerEvent.setDepth 7,
        ExplorerEvent.selectEntity 2]).depth ≤ 3) ∧
    (1 ≤ (graphApi.explore 2 3).depth ∧ (graphApi.explore 2 3).depth ≤ 3) := by
  have h := explorer_depth_in_range
    [ExplorerEvent.setDepth 7, ExplorerEvent.selectEntity 2]
  exact ⟨h.1, h.2.1, h.2.2 (graphApi.explore 2 3) (by decide)⟩

theorem mapWithIdx_length (f : Nat → GraphNode → FlowNode) :
    ∀ (k : Nat) (l : List GraphNode), (mapWithIdx f k l).length = l.length
  | _, [] => rfl
  | k, a :: l => by
    simp [mapWithIdx, mapWithIdx_length f (k + 1) l]

theorem toFlowNodes_length (d : GraphData) :
    (toFlowNodes d).length = d.nodes.length :=
  mapWithIdx_length _ 0 d.nodes

theorem toFlowEdges_length (d : GraphData) :
    (toFlowEdges d).length = d.edges.length := by
  simp [toFlowEdges]

theorem mapWithIdx_get (f : Nat → GraphNode → FlowNode) :
    ∀ (k : Nat) (l : List GraphNode) (i : Nat) (h : i < l.length),
      (mapWithIdx f k l).get ⟨i, by rw [mapWithIdx_length]; exact h⟩
        = f (k + i) (l.get ⟨i, h⟩) := by
  intro k l
  induction l generalizing k with
  | nil =>
    intro i h
    exact absurd h (Nat.not_lt_zero i)
  | cons a l ih =>
    intro i h
    cases i with
    | zero => simp [mapWithIdx]
    | succ i =>
      show (mapWithIdx f (k + 1) l).get ⟨i, _⟩ = f (k + (i + 1)) (l.get ⟨i, _⟩)
      rw [ih (k + 1) i (Nat.lt_of_succ_lt_succ h)]
      rw [show k + (i + 1) = k + 1 + i by omega]

/-- C9: the viewer conversion preserves order and ids with no implicit
re-sorting — the i-th input `GraphNode` maps to the i-th output node
(id rendered as its string form) and the j-th input `GraphEdge` to the
j-th output edge; being a pure function of the `GraphData`, two
conversions of the same input yield identical sequences. -/
theorem viewer_conversion_stable (d : GraphData) (i j : Nat)
    (hi : i < d.nodes.length) (hj : j < d.edges.length) :
    (toFlowNodes d).length = d.nodes.length ∧
    (toFlowEdges d).length = d.edges.length ∧
    (toFlowNodes d).get ⟨i, by rw [toFlowNodes_length]; exact hi⟩
      = toFlowNode i d.nodes.length (d.nodes.get ⟨i, hi⟩) ∧
    (toFlowEdges d).get ⟨j, by rw [toFlowEdges_length]; exact hj⟩
      = toFlowEdge (d.edges.get ⟨j, hj⟩) ∧
    (toFlowNode i d.nodes.length (d.nodes.get ⟨i, hi⟩)).id
      = toString (d.nodes.get ⟨i, hi⟩).id := by
  refine ⟨toFlowNodes_length d, toFlowEdges_length d, ?_, ?_, rfl⟩
  · have h := mapWithIdx_get
      (fun idx node => toFlowNode idx d.nodes.length node) 0 d.nodes i hi
    simpa using h
  · show (d.edges.map toFlowEdge).get ⟨j, _⟩ = toFlowEdge (d.edges.get ⟨j, hj⟩)
    simp [List.get_eq_getElem, List.getElem_map]

theorem viewer_conversion_stable_witness :
    (toFlowNodes sampleGraphData).length = sampleGraphData.nodes.length ∧
    (toFlowEdges sampleGraphData).length = sampleGraphData.edges.length ∧
    (toFlowNodes sampleGraphData).get ⟨0, by decide⟩
      = toFlowNode 0 1 sampleGraphNode ∧
    (toFlowEdges sampleGraphData).get ⟨0, by decide⟩
      = toFlowEdge sampleGraphEdge ∧
    (toFlowNode 0 1 sampleGraphNode).id = toString sampleGraphNode.id := by
  have h := viewer_conversion_stable sampleGraphData 0 0 (by decide) (by decide)
  exact ⟨h.1, h.2.1, h.2.2.1, h.2.2.2.1, h.2.2.2.2⟩

/-- C10: with no entity selected the Graph Explorer page's graph query
function yields the empty `GraphData` (zero nodes, zero edges) without
issuing any explore API call, and the query itself is disabled. -/
theorem no_selection_empty_and_disabled (depth : Nat) :
    graphQueryFn none depth = QueryAction.resolve emptyGraphData ∧
    emptyGraphData.nodes = [] ∧ emptyGraphData.edges = [] ∧
    graphQueryEnabled none = false :=
  ⟨rfl, rfl, rfl, rfl⟩

end UntitledWorld
